import Mathlib

/-!
Verification development for the RAMControl control-channel core.

This file gives a shallow embedding of the message codec
(`source/pylib/messages.py`), the control state machine and its message
handlers (`ramcontrol/control.py`), the outbound queue of the socket
server (`ramcontrol/zmqsocket.py`), and the voice-server worker IPC
protocol (`RAMControl.voice_detector`), and proves or refutes the
specified properties about them.

Conventions of the embedding:
* Python `None` and JSON `null` are conflated (as they are by the
  `json` module) into `Json.null`.
* Clock reads (`time.time()`, `RAMMessage.now()`) are passed in
  explicitly as an integer parameter `now`; message timestamps and
  heartbeat times are integers.
* Logging is modelled as an accumulated list of log strings; `sys.exit`
  and exceptions are modelled as explicit result data.
-/

namespace RAMControlSpec

/-! ## JSON values

A minimal JSON value type sufficient for every payload that the control
core constructs or inspects.  Objects are association lists of
key/value pairs in insertion order, mirroring `dict` construction and
`json.dumps` serialization order. -/

mutual

inductive Json where
  | null
  | bool (b : Bool)
  | num (n : Int)
  | str (s : String)
  | obj (fields : JFields)
deriving DecidableEq, Repr

inductive JFields where
  | nil
  | cons (key : String) (value : Json) (rest : JFields)
deriving DecidableEq, Repr

end

/-- Look a key up in a JSON object's field list (first match, as in a
Python `dict` where keys are unique). -/
def JFields.lookup : JFields → String → Option Json
  | .nil, _ => none
  | .cons k v rest, key => if k = key then some v else rest.lookup key

/-- The keys of a JSON object, in order. -/
def JFields.keys : JFields → List String
  | .nil => []
  | .cons k _ rest => k :: rest.keys

/-! ## Message codec (`source/pylib/messages.py`) -/

/-- Embeds `RAMMessage`: a message with an event type, a timestamp in
ms, and optional `data` / `aux_data` payloads (absent = `null`). -/
structure RAMMessage where
  event_type : String
  timestamp : Int
  data : Json
  aux_data : Json
deriving DecidableEq, Repr

/-- Embeds the Python expression `timestamp or self.now()` from
`RAMMessage.__init__`: `None` and the falsy number `0` both yield the
current time; any other supplied timestamp is kept. -/
def pyTimestampOr (timestamp : Option Int) (now : Int) : Int :=
  match timestamp with
  | none => now
  | some t => if t = 0 then now else t

/-- Embeds `RAMMessage.__init__(event_type, timestamp=None, data=None,
aux_data=None)`; `now` is the value `self.now()` would read from the
clock. -/
def RAMMessage.init (now : Int) (event_type : String)
    (timestamp : Option Int := none) (data : Json := .null)
    (aux_data : Json := .null) : RAMMessage :=
  { event_type := event_type
    timestamp := pyTimestampOr timestamp now
    data := data
    aux_data := aux_data }

/-- Embeds `ConnectedMessage(timestamp=None)`. -/
def ConnectedMessage (now : Int) (timestamp : Option Int := none) : RAMMessage :=
  RAMMessage.init now "CONNECTED" timestamp

/-- Embeds `HeartbeatMessage(interval=1, timestamp=None)`. -/
def HeartbeatMessage (now : Int) (interval : Int := 1)
    (timestamp : Option Int := none) : RAMMessage :=
  RAMMessage.init now "HEARTBEAT" timestamp (.num interval)

/-- Embeds `ExperimentNameMessage(experiment, timestamp=None)`. -/
def ExperimentNameMessage (now : Int) (experiment : String)
    (timestamp : Option Int := none) : RAMMessage :=
  RAMMessage.init now "EXPNAME" timestamp (.str experiment)

/-- Embeds `VersionMessage(version, timestamp=None)`. -/
def VersionMessage (now : Int) (version : String)
    (timestamp : Option Int := none) : RAMMessage :=
  RAMMessage.init now "VERSION" timestamp (.str version)

/-- Embeds `SessionMessage(session, session_type, timestamp=None)`. -/
def SessionMessage (now : Int) (session : Int) (session_type : Json)
    (timestamp : Option Int := none) : RAMMessage :=
  RAMMessage.init now "SESSION" timestamp
    (.obj (.cons "session_type" session_type
      (.cons "session_number" (.num session) .nil)))

/-- Embeds `SubjectIdMessage(subject, timestamp=None)`. -/
def SubjectIdMessage (now : Int) (subject : String)
    (timestamp : Option Int := none) : RAMMessage :=
  RAMMessage.init now "SUBJECTID" timestamp (.str subject)

/-- Embeds `AlignClockMessage(timestamp=None)`. -/
def AlignClockMessage (now : Int) (timestamp : Option Int := none) : RAMMessage :=
  RAMMessage.init now "ALIGNCLOCK" timestamp

/-- Embeds `SyncMessage(num, timestamp=None)`: the sequence payload goes
into `aux_data`. -/
def SyncMessage (now : Int) (num : Json) (timestamp : Option Int := none) :
    RAMMessage :=
  RAMMessage.init now "SYNC" timestamp .null num

/-- Embeds `ExitMessage(timestamp=None)`. -/
def ExitMessage (now : Int) (timestamp : Option Int := none) : RAMMessage :=
  RAMMessage.init now "EXIT" timestamp

/-- Embeds `RAMMessage.to_dict` (and so `jsonize`, up to `json.dumps`):
the dict literally built by the source, which always contains all four
keys, with `data`/`aux` set to `null` when absent. -/
def RAMMessage.to_dict (m : RAMMessage) : JFields :=
  .cons "time" (.num m.timestamp)
    (.cons "type" (.str m.event_type)
      (.cons "data" m.data
        (.cons "aux" m.aux_data .nil)))

/-- The encoder as the spec's words describe it, for comparison with the
source encoder `RAMMessage.to_dict`: a JSON object with the fields
`time`/`type`/`data`/`aux`, *omitting* `data` and `aux` when they are
absent. -/
def specEncode (m : RAMMessage) : JFields :=
  .cons "time" (.num m.timestamp)
    (.cons "type" (.str m.event_type)
      (match m.data, m.aux_data with
        | .null, .null => .nil
        | .null, aux => .cons "aux" aux .nil
        | d, .null => .cons "data" d .nil
        | d, aux => .cons "data" d (.cons "aux" aux .nil)))

/-- Modelled from the spec: `Decode(bytes) -> Message` is not present in
the source (the task side only decodes to a raw JSON dict via
`recv_json`); per the spec it fails on malformed input or a missing
`type` field and otherwise rebuilds the Message, with absent
`data`/`aux` read back as absent. -/
def decode (fields : JFields) : Option RAMMessage :=
  match fields.lookup "type", fields.lookup "time" with
  | some (.str t), some (.num n) =>
      some { event_type := t
             timestamp := n
             data := (fields.lookup "data").getD .null
             aux_data := (fields.lookup "aux").getD .null }
  | _, _ => none

/-! ## Control state machine (`ramcontrol/control.py`)

The observable state of a `RAMControl` instance, together with the
outbound queue of its `SocketServer` (the target of
`socket.enqueue_message`) and the log lines it emits.  Clock reads are
parameters: `nowMs` is what `RAMMessage.now()` (ms) returns when a
message is built, `nowS` is what `time.time()` (s) returns where the
source reads it directly. -/
structure CState where
  configured : Bool
  connected : Bool
  synced : Bool
  started : Bool
  last_heartbeat_received : Int
  experiment : String
  version : String
  session_num : Int
  subject : String
  out : List RAMMessage
  logs : List String
deriving DecidableEq, Repr

/-- The state set up by `RAMControl.__init__`:

no flags set, `_last_heartbeat_received = -1.`, empty experiment data. -/
def CState.initial : CState :=
  { configured := false
    connected := false
    synced := false
    started := false
    last_heartbeat_received := -1
    experiment := ""
    version := ""
    session_num := -1
    subject := ""
    out := []
    logs := [] }

/-- Append an outbound message: `self.socket.enqueue_message(msg)`,
i.e. `Queue.put_nowait` on the (unbounded) outgoing queue. -/
def CState.enqueue (s : CState) (m : RAMMessage) : CState :=
  { s with out := s.out ++ [m] }

/-- Append a log line. -/
def CState.log (s : CState) (line : String) : CState :=
  { s with logs := s.logs ++ [line] }

/-- Embeds `RAMControl.send(message)` for an actual `RAMMessage`
argument (every call site in the embedded code passes one): enqueue it
on the socket queue. -/
def CState.send (s : CState) (m : RAMMessage) : CState :=
  s.enqueue m

/-- Embeds `RAMControl.shutdown`: logs, sends an `EXIT` message, then
closes servers and sockets (the closing has no observable effect in
this state model). -/
def shutdown (nowMs : Int) (s : CState) : CState :=
  (s.log "Shutting down.").send (ExitMessage nowMs)

/-- Embeds `RAMControl.configure(experiment, version, session_num,
subject)`: records the experiment data and sets `_configured` (the poll
callbacks it registers are the pump operations modelled separately). -/
def configure (s : CState) (experiment version : String) (session_num : Int)
    (subject : String) : CState :=
  { s with
    experiment := experiment
    version := version
    session_num := session_num
    subject := subject
    configured := true }

/-! ### Message handlers and dispatch -/

/-- The keys of the handler registry populated in
`RAMControl.__init__`. -/
def handlerKeys : List String :=
  ["ID", "SYNC", "SYNCED", "START", "EXIT", "HEARTBEAT", "CONNECTED"]

/-- Embeds `sync_handler`: reads `msg["num"]` (a `KeyError` if absent,
caught by `dispatch`) and sends back a `SyncMessage` whose `aux_data`
is that sequence payload and whose timestamp is the current ms clock. -/
def sync_handler (nowMs : Int) (msg : JFields) (s : CState) :
    Except String CState :=
  match msg.lookup "num" with
  | none => .error "KeyError: num"
  | some num => .ok (s.send (SyncMessage nowMs num))

/-- Embeds `synced_handler`: sets the synced flag
(`self._synced.set()`). -/
def synced_handler (s : CState) : Except String CState :=
  .ok { s with synced := true }

/-- Embeds `exit_handler`: logs and runs `shutdown`. -/
def exit_handler (nowMs : Int) (s : CState) : Except String CState :=
  .ok (shutdown nowMs (s.log "RAMControl exiting"))

/-- Embeds `connected_handler`: sets `_connected` and enqueues a
`CONNECTED` acknowledgment. -/
def connected_handler (nowMs : Int) (s : CState) : Except String CState :=
  .ok ({ s with connected := true }.enqueue (ConnectedMessage nowMs))

/-- Embeds `heartbeat_handler`: records `time.time()` (seconds) as the
last heartbeat arrival. -/
def heartbeat_handler (nowS : Int) (s : CState) : Except String CState :=
  .ok { s with last_heartbeat_received := nowS }

/-- Embeds `start_handler`: sets `_started`. -/
def start_handler (s : CState) : Except String CState :=
  .ok { s with started := true }

/-- Run the registered handler for a type tag known to be in
`handlerKeys` (`id_handler` is a logged no-op). -/
def runHandler (nowMs nowS : Int) (mtype : String) (msg : JFields)
    (s : CState) : Except String CState :=
  if mtype = "ID" then .ok s
  else if mtype = "SYNC" then sync_handler nowMs msg s
  else if mtype = "SYNCED" then synced_handler s
  else if mtype = "START" then start_handler s
  else if mtype = "EXIT" then exit_handler nowMs s
  else if mtype = "HEARTBEAT" then heartbeat_handler nowS s
  else if mtype = "CONNECTED" then connected_handler nowMs s
  else .ok s

/-- Whether `msg["type"]` hits the handler registry.  Registry keys are
all strings, so a non-string type value never matches.  (CPython would
raise `TypeError` before the membership test for an *unhashable* type
value such as an object or array; messages are taken here with the
data model's `type : string`-or-primitive shape, for which membership
is well defined.) -/
def registered : Json → Bool
  | .str k => handlerKeys.contains k
  | _ => false

/-- Embeds `RAMControl.dispatch(msg)`: missing `type` key logs and
returns; an unregistered type logs and returns; otherwise the handler
runs with any exception caught and logged, never propagated. -/
def dispatch (nowMs nowS : Int) (msg : JFields) (s : CState) : CState :=
  match msg.lookup "type" with
  | none => s.log "No type key in message!"
  | some mtype =>
    if registered mtype then
      match mtype with
      | .str k =>
        match runHandler nowMs nowS k msg s with
        | .ok s2 => s2
        | .error e => s.log ("Error handling message: " ++ e)
      | _ => s
    else
      s.log "Unknown message type received"

/-! ### Liveness check (`RAMControl.check_connection`) -/

/-- The default of the `connection_timeout` constructor parameter, in
seconds. -/
def CONNECTION_TIMEOUT_DEFAULT : Int := 10

/-- Result of one `check_connection` poll tick: the new state, how many
times `shutdown` ran, and the argument of `sys.exit` if it was
called. -/
structure CheckConnectionResult where
  state : CState
  shutdownCalls : Nat
  exitCode : Option Int
deriving DecidableEq, Repr

/-- Embeds `RAMControl.check_connection`: if a heartbeat has ever been
received (`_last_heartbeat_received > 0`) and `time.time() -
_last_heartbeat_received >= connection_timeout` while `_connected`,
mark disconnected, log, run `shutdown` and call `sys.exit(0)`;
otherwise (re)mark `_connected = True`. -/
def check_connection (nowMs nowS timeout : Int) (s : CState) :
    CheckConnectionResult :=
  if s.last_heartbeat_received > 0 then
    if nowS - s.last_heartbeat_received ≥ timeout ∧ s.connected = true then
      { state := shutdown nowMs
          ({ s with connected := false }.log "Quitting due to disconnect")
        shutdownCalls := 1
        exitCode := some 0 }
    else
      { state := { s with connected := true }
        shutdownCalls := 0
        exitCode := none }
  else
    { state := s, shutdownCalls := 0, exitCode := none }

/-! ### Clock alignment (`RAMControl.align_clocks`) -/

/-- The truth value Python assigns to the `threading.Event` object
`self._synced` when it appears in a boolean context: the class defines
neither `__bool__` nor `__len__`, so the object is always truthy,
regardless of whether its internal flag is set. -/
def eventTruthy : Bool := true

/-- The `while not self._synced:` loop of `align_clocks`, given `fuel`
available iterations; returns how many times the loop body ran (each
body run logs, waits one `poll_interval`, and invokes the callback
once). -/
def alignLoop : Nat → Nat
  | 0 => 0
  | fuel + 1 => if !eventTruthy then alignLoop fuel + 1 else 0

/-- Result of `align_clocks`: the state at return and the number of
callback invocations while waiting. -/
structure AlignClocksResult where
  state : CState
  callbackCalls : Nat
deriving DecidableEq, Repr

/-- Embeds `RAMControl.align_clocks(poll_interval, callback)`: clears
the synced event, sends `ALIGNCLOCK`, then runs
`while not self._synced: ...` — whose condition tests the truthiness
of the Event *object*, not `is_set()`. -/
def align_clocks (nowMs : Int) (fuel : Nat) (s : CState) :
    AlignClocksResult :=
  let s1 := { s with synced := false }
  let s2 := s1.send (AlignClockMessage nowMs)
  { state := s2, callbackCalls := alignLoop fuel }

/-! ### Connection handshake (`RAMControl.initiate_connection`) -/

/-- Result of `initiate_connection`: the state at return, whether a
`RamException` was raised, and the return value. -/
structure InitiateResult where
  state : CState
  error : Option String
  success : Bool
deriving DecidableEq, Repr

/-- Embeds the body of `RAMControl.initiate_connection` from the point
where its `while not self._connected` polling loop has exited (the
state `s` is the state once a `CONNECTED` message has been dispatched):
raise `RamException` if unconfigured; otherwise stamp
`_last_heartbeat_received = time.time()`, send `EXPNAME`, `VERSION`,
`SESSION` (with `session_type = ""`), `SUBJECTID` in that order, start
the heartbeat emitter, and return `True`. -/
def initiate_connection_after (nowMs nowS : Int) (s : CState) :
    InitiateResult :=
  if s.configured = false then
    { state := s.log "Cannot connect before configuring"
      error := some "Unconfigured RAMControl"
      success := false }
  else
    let s1 := { s with last_heartbeat_received := nowS }
    let s2 := s1.send (ExperimentNameMessage nowMs s1.experiment)
    let s3 := s2.send (VersionMessage nowMs s1.version)
    let s4 := s3.send (SessionMessage nowMs s1.session_num (.str ""))
    let s5 := s4.send (SubjectIdMessage nowMs s1.subject)
    { state := s5.log "Connection succeeded."
      error := none
      success := true }

/-- The end-to-end handshake scenario of the spec:
`configure("FR5", "6.0.0", 0, "R0001E")`, then `initiate_connection()`
against a peer that immediately sends `CONNECTED` (so the polling loop
dispatches exactly that one inbound message and exits). -/
def scenarioC4 (nowMs nowS : Int) : InitiateResult :=
  let s0 := configure CState.initial "FR5" "6.0.0" 0 "R0001E"
  let s1 := dispatch nowMs nowS (.cons "type" (.str "CONNECTED") .nil) s0
  initiate_connection_after nowMs nowS s1

/-! ## Outbound queue (`ramcontrol/zmqsocket.py`)

`SocketServer.__init__` creates the outgoing queue as `Queue()` — with
the library default `maxsize=0`, i.e. an *unbounded* queue.  The
constant `MAX_QUEUE_SIZE = 32` declared on `RAMControl` is never passed
to it. -/

/-- Embeds `RAMControl.MAX_QUEUE_SIZE` (declared in `control.py`,
unused by the queue construction). -/
def MAX_QUEUE_SIZE : Nat := 32

/-- The `maxsize` actually given to `Queue()` in
`SocketServer.__init__`: the default `0`, meaning no bound. -/
def QUEUE_MAXSIZE : Nat := 0

/-- The outgoing queue `SocketServer._out_queue`, front of the list =
front of the queue. -/
abbrev OutQueue := List RAMMessage

/-- Embeds `SocketServer.enqueue_message`: `put_nowait` on an
unbounded queue — always appends, never blocks and never fails. -/
def enqueue_message (q : OutQueue) (m : RAMMessage) : OutQueue :=
  q ++ [m]

/-- Embeds `SocketServer.handle_outgoing`: `while not empty:
get_nowait(); send(msg)` — drains the whole queue, transmitting each
message in turn.  Returns the transmitted messages in transmission
order, and the remaining queue. -/
def handle_outgoing : OutQueue → List RAMMessage × OutQueue
  | [] => ([], [])
  | m :: rest =>
    let r := handle_outgoing rest
    (m :: r.1, r.2)

/-! ## Worker IPC / voice gate (`RAMControl.voice_detector`)

The `voice_detector` context manager exchanges `START`/`STARTED` and
`STOP`/`STOPPED` over the duplex pipe to the `VoiceServer` worker
process.  A pipe *schedule* abstracts the worker's replies: one entry
per `poll(0.1)` call, `none` meaning the 100 ms poll timed out with no
message, `some t` meaning a message of type `t` was available and
received.  A schedule shorter than the polls performed behaves as
timeouts (`none`). -/

/-- The poll timeout of each acknowledgment wait, in ms (`poll(0.1)`). -/
def WORKER_ACK_POLL_MS : Nat := 100

/-- The number of polls attempted for the `STOPPED` acknowledgment
(`for _ in range(6)`). -/
def STOP_RETRY_ATTEMPTS : Nat := 6

/-- The exceptions `voice_detector` can raise, plus an exception raised
by the wrapped region itself. -/
inductive PyError where
  | voiceServerError (msg : String)
  | assertionError
  | bodyException
deriving DecidableEq, Repr

/-- Is this the typed voice-server worker error
(`exc.VoiceServerError`)? -/
def PyError.isVoiceServerError : PyError → Bool
  | .voiceServerError _ => true
  | _ => false

/-- Outcome of a `with voice_detector():` block: which commands were
sent on the pipe, whether the wrapped region was entered, and the
exception propagating out, if any. -/
structure VDResult where
  pipeSent : List String
  bodyRan : Bool
  error : Option PyError
deriving DecidableEq, Repr

/-- The `STOPPED`-acknowledgment loop of `voice_detector`: up to
`attempts` polls; a poll returning a `STOPPED` message breaks out; a
timeout or a message of another type consumes the attempt; exhaustion
raises the `VoiceServerError`. -/
def stopLoop (sched : List (Option String)) : Nat → Option PyError
  | 0 => some (.voiceServerError "no STOPPED response")
  | attempts + 1 =>
    match sched with
    | [] => stopLoop [] attempts
    | r :: rest =>
      if r = some "STOPPED" then none
      else stopLoop rest attempts

/-- Embeds the `RAMControl.voice_detector` context manager used around
a wrapped region (`bodyRaises` tells whether that region raises):
with a voice server, send `START`, poll 100 ms for a reply (raise the
`VoiceServerError` on timeout), `assert` the reply type is `STARTED`
(an `AssertionError` on any other reply), run the region, then — only
on its normal exit, the `yield` not being wrapped in `try/finally` —
send `STOP` and run the `STOPPED` loop.  Without a voice server the
region simply runs. -/
def voice_detector (hasServer : Bool) (sched : List (Option String))
    (bodyRaises : Bool) : VDResult :=
  if hasServer then
    match sched.headD none with
    | none =>
      { pipeSent := ["START"]
        bodyRan := false
        error := some (.voiceServerError "no STARTED response") }
    | some t =>
      if t = "STARTED" then
        if bodyRaises then
          { pipeSent := ["START"]
            bodyRan := true
            error := some .bodyException }
        else
          { pipeSent := ["START", "STOP"]
            bodyRan := true
            error := stopLoop sched.tail STOP_RETRY_ATTEMPTS }
      else
        { pipeSent := ["START"]
          bodyRan := false
          error := some .assertionError }
  else
    { pipeSent := []
      bodyRan := true
      error := if bodyRaises then some .bodyException else none }

/-! ## Concrete inputs used by the theorems below -/

/-- An inbound `SYNC` message from the host carrying sequence payload
`k` under the `num` key, as `sync_handler` reads it. -/
def syncInbound (k : Int) : JFields :=
  .cons "type" (.str "SYNC") (.cons "num" (.num k) .nil)

/-- A connected state whose last heartbeat arrived at second 1. -/
def sC2 : CState :=
  { CState.initial with connected := true, last_heartbeat_received := 1 }

/-- Thirty-three distinct messages, one more than `MAX_QUEUE_SIZE`. -/
def c9Msgs : List RAMMessage :=
  (List.range 33).map (fun i => ConnectedMessage i)

/-! ## Helper lemmas -/

/-- The `STOPPED` loop raises the `VoiceServerError` when none of the
polls it performs yields a `STOPPED` message. -/
theorem stopLoop_exhaust (attempts : Nat) (sched : List (Option String))
    (h : ∀ r ∈ sched.take attempts, r ≠ some "STOPPED") :
    stopLoop sched attempts = some (.voiceServerError "no STOPPED response") := by
  induction attempts generalizing sched with
  | zero => rfl
  | succ n ih =>
    cases sched with
    | nil =>
      show stopLoop [] n = _
      exact ih [] (by simp)
    | cons r rest =>
      have hr : r ≠ some "STOPPED" := h r (by simp)
      show (if r = some "STOPPED" then none else stopLoop rest n) = _
      rw [if_neg hr]
      exact ih rest (fun x hx => h x (by simp at hx ⊢; right; exact hx))

/-- Folding `enqueue_message` over a list appends it to the queue. -/
theorem foldl_enqueue (ms : List RAMMessage) (q : OutQueue) :
    ms.foldl enqueue_message q = q ++ ms := by
  induction ms generalizing q with
  | nil => simp
  | cons m rest ih => simp [enqueue_message, ih]

/-- `handle_outgoing` transmits the whole queue, front first, and
leaves it empty. -/
theorem handle_outgoing_drains (l : OutQueue) :
    handle_outgoing l = (l, []) := by
  induction l with
  | nil => rfl
  | cons m rest ih => simp [handle_outgoing, ih]

/-! ## Claim theorems -/

/-- C1 (counterexample): the source encoder `RAMMessage.to_dict` does
*not* omit `data`/`aux` when absent — for a `CONNECTED` message with no
payloads it still emits a `data` field (as `null`), so it differs from
the spec-described encoder `specEncode` that omits absent fields. -/
theorem C1_encode_counterexample :
    RAMMessage.to_dict (ConnectedMessage 5) ≠ specEncode (ConnectedMessage 5) ∧
    (RAMMessage.to_dict (ConnectedMessage 5)).lookup "data" = some .null ∧
    (specEncode (ConnectedMessage 5)).lookup "data" = none := by decide

/-- C1 (amended): `Encode` produces a JSON object with exactly the four
fields `time`/`type`/`data`/`aux`, always present, with `data`/`aux`
set to `null` when absent; and for every constructible Message `m`,
`Decode(Encode(m))` is value-equal to `m`. -/
theorem C1_roundtrip_amended (m : RAMMessage) :
    decode m.to_dict = some m ∧
    m.to_dict.keys = ["time", "type", "data", "aux"] := ⟨rfl, rfl⟩

/-- C2 (counterexample): on heartbeat timeout `check_connection` calls
`sys.exit(0)` — the process terminates with exit status zero, not the
non-zero status the claim states.  Concrete input: connected state,
last heartbeat at second 1, clock now at second 20, timeout 10 s. -/
theorem C2_exit_status_counterexample :
    (check_connection 0 20 10 sC2).exitCode = some 0 ∧
    ¬ ∃ c : Int, (check_connection 0 20 10 sC2).exitCode = some c ∧ c ≠ 0 := by
  refine ⟨rfl, ?_⟩
  rintro ⟨c, hc, hne⟩
  have h0 : (some (0 : Int) : Option Int) = some c := hc
  exact hne (Option.some.inj h0).symm

/-- C2 (amended): if a heartbeat has been received before and none for
at least the configured timeout while the connection was marked live,
the liveness check marks the connection dead, logs the disconnect,
invokes `shutdown` exactly once, and terminates the process via
`sys.exit(0)` — exit status zero. -/
theorem C2_heartbeat_timeout_amended (nowMs nowS timeout : Int) (s : CState)
    (hbeat : s.last_heartbeat_received > 0)
    (htime : nowS - s.last_heartbeat_received ≥ timeout)
    (hconn : s.connected = true) :
    (check_connection nowMs nowS timeout s).state.connected = false ∧
    "Quitting due to disconnect" ∈ (check_connection nowMs nowS timeout s).state.logs ∧
    (check_connection nowMs nowS timeout s).shutdownCalls = 1 ∧
    (check_connection nowMs nowS timeout s).exitCode = some 0 := by
  unfold check_connection
  rw [if_pos hbeat, if_pos ⟨htime, hconn⟩]
  refine ⟨rfl, ?_, rfl, rfl⟩
  simp [shutdown, CState.log, CState.send, CState.enqueue]

/-- C2 (witness): the amended theorem at the concrete timed-out
state. -/
theorem C2_heartbeat_timeout_amended_witness :
    (check_connection 0 20 10 sC2).state.connected = false ∧
    "Quitting due to disconnect" ∈ (check_connection 0 20 10 sC2).state.logs ∧
    (check_connection 0 20 10 sC2).shutdownCalls = 1 ∧
    (check_connection 0 20 10 sC2).exitCode = some 0 :=
  C2_heartbeat_timeout_amended 0 20 10 sC2 (by decide) (by decide) (by decide)

/-- C3 (code evaluation): `align_clocks` never waits for `SYNCED`.  Its
loop condition `while not self._synced` tests the truthiness of the
`threading.Event` object — always true — instead of `is_set()`, so for
any number of available loop iterations the body never runs: the call
returns at once with the synced flag still cleared, the callback never
invoked, and only the `ALIGNCLOCK` message sent.  This contradicts the
claim (clearly the intent, given the dead `wait`/callback code in the
loop body). -/
theorem C3_align_clocks_never_waits (nowMs : Int) (fuel : Nat) (s : CState) :
    (align_clocks nowMs fuel s).state.synced = false ∧
    (align_clocks nowMs fuel s).callbackCalls = 0 ∧
    (align_clocks nowMs fuel s).state.out = s.out ++ [AlignClockMessage nowMs] := by
  cases fuel with
  | zero => exact ⟨rfl, rfl, rfl⟩
  | succ n => exact ⟨rfl, rfl, rfl⟩

/-- C4: after `configure("FR5", "6.0.0", 0, "R0001E")` and
`initiate_connection()` against a peer that immediately sends
`CONNECTED`, the outbound queue holds exactly the ack `CONNECTED`,
`EXPNAME("FR5")`, `VERSION("6.0.0")`, `SESSION(0, "")`,
`SUBJECTID("R0001E")`, in that order, and the call returns `True`. -/
theorem C4_handshake_sequence (nowMs nowS : Int) :
    (scenarioC4 nowMs nowS).state.out =
      [ConnectedMessage nowMs,
       ExperimentNameMessage nowMs "FR5",
       VersionMessage nowMs "6.0.0",
       SessionMessage nowMs 0 (.str ""),
       SubjectIdMessage nowMs "R0001E"] ∧
    (scenarioC4 nowMs nowS).success = true := ⟨rfl, rfl⟩

/-- C5 (counterexample): at clock 1000 ms, dispatching an inbound
`SYNC` with sequence number 5 enqueues exactly one `SYNC` reply — but
its `aux` field is the sequence number 5, *not* the current clock
value 1000 that the claim says `aux` carries (the clock goes into the
`time` field). -/
theorem C5_aux_counterexample :
    (dispatch 1000 1 (syncInbound 5) CState.initial).out =
      [SyncMessage 1000 (.num 5)] ∧
    (SyncMessage 1000 (.num 5)).aux_data = .num 5 ∧
    (SyncMessage 1000 (.num 5)).aux_data ≠ .num 1000 ∧
    (SyncMessage 1000 (.num 5)).timestamp = 1000 := by decide

/-- C5 (amended): for every inbound `SYNC` carrying sequence number `k`
(under the `num` key), dispatch enqueues exactly one outbound `SYNC`
whose `aux` field equals `k` and nothing else changes; the reply
carries the task machine's current clock (ms) in its `time` field. -/
theorem C5_sync_echo_amended (nowMs nowS k : Int) (s : CState) :
    dispatch nowMs nowS (syncInbound k) s =
      { s with out := s.out ++ [SyncMessage nowMs (.num k)] } ∧
    (SyncMessage nowMs (.num k)).aux_data = .num k ∧
    (SyncMessage nowMs (.num k)).timestamp = nowMs := ⟨rfl, rfl, rfl⟩

/-- C6 (counterexample): with the worker having acknowledged `STARTED`,
a wrapped region that raises makes the exception propagate out of the
`voice_detector` context manager *without* `STOP` ever being sent — the
`yield` is not wrapped in `try/finally`, so `Stop()` is not attempted
on an exceptional exit. -/
theorem C6_no_stop_on_exception_counterexample :
    voice_detector true [some "STARTED"] true =
      { pipeSent := ["START"], bodyRan := true, error := some .bodyException } ∧
    "STOP" ∉ (voice_detector true [some "STARTED"] true).pipeSent := by decide

/-- C6 (amended): with a voice server, the wrapped region only runs
after a `STARTED` acknowledgment is received; `Stop()` (sending `STOP`
and awaiting `STOPPED`) is attempted on *normal* exit of the region
only — if the region raises, `STOP` is not sent. -/
theorem C6_voice_gate_amended (sched : List (Option String)) (bodyRaises : Bool)
    (hrun : (voice_detector true sched bodyRaises).bodyRan = true) :
    sched.headD none = some "STARTED" ∧
    (bodyRaises = false → "STOP" ∈ (voice_detector true sched bodyRaises).pipeSent) ∧
    (bodyRaises = true → "STOP" ∉ (voice_detector true sched bodyRaises).pipeSent) := by
  cases sched with
  | nil => simp [voice_detector] at hrun
  | cons r rest =>
    cases r with
    | none => simp [voice_detector] at hrun
    | some t =>
      by_cases ht : t = "STARTED"
      · subst ht
        refine ⟨rfl, fun hb => ?_, fun hb => ?_⟩
        · subst hb
          show "STOP" ∈ (["START", "STOP"] : List String)
          decide
        · subst hb
          show "STOP" ∉ (["START"] : List String)
          decide
      · simp [voice_detector, ht] at hrun

/-- C6 (witness): the amended theorem at a concrete run that receives
`STARTED`, completes normally, and receives `STOPPED`. -/
theorem C6_voice_gate_amended_witness :
    ([some "STARTED", some "STOPPED"] : List (Option String)).headD none =
      some "STARTED" ∧
    (false = false →
      "STOP" ∈ (voice_detector true [some "STARTED", some "STOPPED"] false).pipeSent) ∧
    (false = true →
      "STOP" ∉ (voice_detector true [some "STARTED", some "STOPPED"] false).pipeSent) :=
  C6_voice_gate_amended [some "STARTED", some "STOPPED"] false (by decide)

/-- C7 (counterexample): when the worker replies to `START` with a
message of a different type, `voice_detector` fails the `assert` — an
`AssertionError`, not the typed worker error `VoiceServerError` the
claim states. -/
theorem C7_assertion_counterexample :
    (voice_detector true [some "BOGUS"] false).error = some .assertionError ∧
    PyError.assertionError.isVoiceServerError = false := by decide

/-- C7 (amended): `Start()` performs a single bounded 100 ms poll for
`STARTED` and raises the typed `VoiceServerError` on timeout, but an
`AssertionError` (not the typed error) on a reply of a different type;
`Stop()` retries polling for `STOPPED` up to 6 attempts of 100 ms each
and raises the typed `VoiceServerError` on exhaustion. -/
theorem C7_worker_ack_amended (sched : List (Option String)) (bodyRaises : Bool) :
    (sched.headD none = none →
      voice_detector true sched bodyRaises =
        { pipeSent := ["START"], bodyRan := false,
          error := some (.voiceServerError "no STARTED response") }) ∧
    (∀ t, sched.headD none = some t → t ≠ "STARTED" →
      (voice_detector true sched bodyRaises).error = some .assertionError) ∧
    (sched.headD none = some "STARTED" → bodyRaises = false →
      (∀ r ∈ sched.tail.take STOP_RETRY_ATTEMPTS, r ≠ some "STOPPED") →
      (voice_detector true sched bodyRaises).error =
        some (.voiceServerError "no STOPPED response")) := by
  cases sched with
  | nil =>
    exact ⟨fun _ => rfl, fun t ht => by simp at ht, fun hh => by simp at hh⟩
  | cons r rest =>
    cases r with
    | none =>
      exact ⟨fun _ => rfl, fun t ht => by simp at ht, fun hh => by simp at hh⟩
    | some u =>
      refine ⟨fun hh => by simp at hh, fun t ht hne => ?_, fun hh hb hall => ?_⟩
      · have hu : u ≠ "STARTED" := by
          have he : u = t := by simpa using ht
          rw [he]; exact hne
        simp [voice_detector, hu]
      · have hu : u = "STARTED" := by simpa using hh
        subst hb
        simp only [voice_detector, hu, if_pos rfl, Bool.false_eq_true, if_false]
        exact stopLoop_exhaust STOP_RETRY_ATTEMPTS rest hall

/-- C7 (witness): the amended theorem at three concrete schedules — a
start-poll timeout, a wrong start reply, and a run whose stop polls all
time out. -/
theorem C7_worker_ack_amended_witness :
    voice_detector true [] false =
      { pipeSent := ["START"], bodyRan := false,
        error := some (.voiceServerError "no STARTED response") } ∧
    (voice_detector true [some "NOPE"] false).error = some .assertionError ∧
    (voice_detector true [some "STARTED"] false).error =
      some (.voiceServerError "no STOPPED response") :=
  ⟨(C7_worker_ack_amended [] false).1 rfl,
   (C7_worker_ack_amended [some "NOPE"] false).2.1 "NOPE" rfl (by decide),
   (C7_worker_ack_amended [some "STARTED"] false).2.2 rfl rfl (by decide)⟩

/-- C8: dispatching a message whose `type` is a string not in the
handler registry only logs the unknown-type error and returns the state
otherwise unchanged (in particular `connected`, `synced`, `started`,
`last_heartbeat_received` and the outbound queue are untouched, since
`CState.log` only appends a log line); a message with no `type` field
likewise only logs and returns. -/
theorem C8_dispatch_unknown_safe (nowMs nowS : Int) (s : CState) :
    (∀ (msg : JFields) (t : String), msg.lookup "type" = some (.str t) →
      t ∉ handlerKeys →
      dispatch nowMs nowS msg s = s.log "Unknown message type received") ∧
    (∀ msg : JFields, msg.lookup "type" = none →
      dispatch nowMs nowS msg s = s.log "No type key in message!") ∧
    (∀ line, ((s.log line).connected, (s.log line).synced, (s.log line).started,
      (s.log line).last_heartbeat_received, (s.log line).out) =
      (s.connected, s.synced, s.started, s.last_heartbeat_received, s.out)) := by
  refine ⟨?_, ?_, fun line => rfl⟩
  · intro msg t h hmem
    have hc : handlerKeys.contains t = false := by simpa using hmem
    simp [dispatch, h, registered, hc]
    exact fun hmm => absurd hmm hmem
  · intro msg h
    simp [dispatch, h]

/-- C8 (witness): the theorem at the inbound message
`{"type": "BOGUS"}` and at an empty message, from the initial state. -/
theorem C8_dispatch_unknown_safe_witness :
    dispatch 0 0 (.cons "type" (.str "BOGUS") .nil) CState.initial =
      CState.initial.log "Unknown message type received" ∧
    dispatch 0 0 .nil CState.initial =
      CState.initial.log "No type key in message!" :=
  ⟨(C8_dispatch_unknown_safe 0 0 CState.initial).1 _ "BOGUS" rfl (by decide),
   (C8_dispatch_unknown_safe 0 0 CState.initial).2.1 .nil rfl⟩

/-- C9 (counterexample): the outgoing queue is *not* bounded at
capacity 32 — `Queue()` is created with the default `maxsize=0`
(unbounded), the declared `MAX_QUEUE_SIZE = 32` never applied: 33
enqueues from empty all succeed and the queue holds 33 messages. -/
theorem C9_unbounded_counterexample :
    (c9Msgs.foldl enqueue_message []).length = 33 ∧
    ¬ (c9Msgs.foldl enqueue_message []).length ≤ MAX_QUEUE_SIZE ∧
    QUEUE_MAXSIZE = 0 := by decide

/-- C9 (amended): the Outbound Queue is an unbounded FIFO
(`Queue()` with default `maxsize` 0; `MAX_QUEUE_SIZE = 32` is declared
but never applied); `enqueue_message` appends and never blocks or
drops, so overflow cannot arise; and a single draining pump transmits
all messages in enqueue order. -/
theorem C9_queue_fifo_amended (q : OutQueue) (ms : List RAMMessage) :
    ms.foldl enqueue_message q = q ++ ms ∧
    handle_outgoing (q ++ ms) = (q ++ ms, []) ∧
    (ms.foldl enqueue_message q).length = q.length + ms.length := by
  refine ⟨foldl_enqueue ms q, handle_outgoing_drains (q ++ ms), ?_⟩
  rw [foldl_enqueue ms q, List.length_append]

/-- C10: constructing a `RAMMessage` with the explicitly supplied
timestamp `0` — the falsy timestamp value of the integer clock model —
yields the current time instead, indistinguishable from omitting the
timestamp, because `__init__` assigns `timestamp or self.now()`. -/
theorem C10_falsy_timestamp (now : Int) (event_type : String) (data aux_data : Json) :
    RAMMessage.init now event_type (some 0) data aux_data =
      RAMMessage.init now event_type none data aux_data ∧
    (RAMMessage.init now event_type (some 0) data aux_data).timestamp = now :=
  ⟨rfl, rfl⟩

end RAMControlSpec
